import Mathlib

/-!
Verification of the RapidPaperTrans PDF-translation scripts.

Shallow embedding of the Python sources:
  - src/scripts/pdf_translate.py        (namespace `ScriptsPT`)
  - src/internal/pdf/translate_pdf.py   (namespace `InternalPT`)
  - src/internal/pdf/overlay_pdf.py     (namespace `OverlayPDF`)
  - src/internal/pdf/write_translations.py (namespace `WriteTrans`)
  - src/internal/pdf/python_overlay.py  (namespace `PyOverlay`)

Text is modelled as `List Char`.  Python float threshold comparisons
(`x / n > 0.7` and the like) are modelled as exact rational comparisons,
written as cross-multiplied `Nat` comparisons so that every definition
evaluates inside the kernel.  Font sizes are modelled as `ℚ`.
-/

/-! ## Python string primitives -/

namespace PyStr

/-- Python whitespace (the set recognised by `str.strip`, `str.split()` and
the regex class `\s` on `str` patterns): ASCII 9-13, 28-31, space, NEL,
NBSP and the Unicode space separators. -/
def pyIsSpace (c : Char) : Bool :=
  let n := c.toNat
  (9 ≤ n && n ≤ 13) || n == 32 || (28 ≤ n && n ≤ 31) || n == 0x85 ||
    n == 0xa0 || n == 0x1680 || (0x2000 ≤ n && n ≤ 0x200a) ||
    n == 0x2028 || n == 0x2029 || n == 0x202f || n == 0x205f || n == 0x3000

/-- Remove trailing whitespace (the right half of Python `str.strip`). -/
def dropTrailingSpaces : List Char → List Char
  | [] => []
  | c :: rest =>
    let r := dropTrailingSpaces rest
    if r.isEmpty && pyIsSpace c then [] else c :: r

/-- Python `str.strip()`: remove leading and trailing whitespace. -/
def pyStrip (l : List Char) : List Char :=
  dropTrailingSpaces (l.dropWhile pyIsSpace)

/-- Python `str.split('\n')`. -/
def splitLinesLF (l : List Char) : List (List Char) :=
  l.splitOn '\n'

/-- Python `needle in haystack` for strings (substring containment;
an empty needle is contained in everything, as in Python). -/
def isSubstringOf (needle haystack : List Char) : Bool :=
  haystack.tails.any (fun t => needle.isPrefixOf t)

/-- Python `str.isdigit()` (true on a nonempty string of digit characters;
modelled on the ASCII digits, the core of Python's Unicode-aware check). -/
def pyIsDigitStr (l : List Char) : Bool :=
  !l.isEmpty && l.all (fun c => c.isDigit)

/-- Length of the longest common prefix of two character lists. -/
def commonPrefixLen : List Char → List Char → Nat
  | a :: as, b :: bs => if a == b then commonPrefixLen as bs + 1 else 0
  | _, _ => 0

/-- First `some` in a list of options. -/
def firstSome {α : Type} : List (Option α) → Option α
  | [] => none
  | some a :: _ => some a
  | none :: rest => firstSome rest

/-- Python dict lookup (`d.get(k)`), on an association list. -/
def dictGet {α : Type} (d : List (List Char × α)) (k : List Char) : Option α :=
  (d.find? (fun p => p.1 == k)).map (fun p => p.2)

/-- Python dict upsert (`d[k] = v`): replace in place, else append. -/
def dictSet {α : Type} : List (List Char × α) → List Char → α → List (List Char × α)
  | [], k, v => [(k, v)]
  | (k0, v0) :: rest, k, v =>
    if k0 == k then (k0, v) :: rest else (k0, v0) :: dictSet rest k v

/-- Stable insertion step for a descending-by-`length` sort. -/
def insertByLenDesc (x : List Char) : List (List Char) → List (List Char)
  | [] => [x]
  | b :: l => if b.length ≤ x.length then x :: b :: l else b :: insertByLenDesc x l

/-- Stable sort, descending by length: Python
`sorted(keys, key=len, reverse=True)`. -/
def sortByLenDesc : List (List Char) → List (List Char)
  | [] => []
  | x :: xs => insertByLenDesc x (sortByLenDesc xs)

end PyStr

/-! ## The normalizer of src/scripts/pdf_translate.py -/

namespace ScriptsPT

open PyStr

/-- normalize_text (src/scripts/pdf_translate.py:50-52):
`re.sub(r'\s+', '', text)` removes every whitespace character. -/
def normalize_text (text : List Char) : List Char :=
  text.filter (fun c => !(pyIsSpace c))

end ScriptsPT

/-! ## MD5 (Python `hashlib.md5(...).hexdigest()`)

The caches of src/internal/pdf/translate_pdf.py and overlay_pdf.py key
entries by the MD5 hex digest of the UTF-8 encoded text.  The algorithm
is embedded below over `Nat` with explicit reduction modulo `2 ^ 32`. -/

namespace MD5

def m32 : Nat := 4294967296

def rotl32 (x s : Nat) : Nat :=
  ((x <<< s) % m32) ||| (x >>> (32 - s))

def not32 (x : Nat) : Nat := (m32 - 1) ^^^ x

/-- The 64 round constants, `floor(2^32 * abs(sin(i+1)))`. -/
def roundK : List Nat := [
  0xd76aa478, 0xe8c7b756, 0x242070db, 0xc1bdceee,
  0xf57c0faf, 0x4787c62a, 0xa8304613, 0xfd469501,
  0x698098d8, 0x8b44f7af, 0xffff5bb1, 0x895cd7be,
  0x6b901122, 0xfd987193, 0xa679438e, 0x49b40821,
  0xf61e2562, 0xc040b340, 0x265e5a51, 0xe9b6c7aa,
  0xd62f105d, 0x02441453, 0xd8a1e681, 0xe7d3fbc8,
  0x21e1cde6, 0xc33707d6, 0xf4d50d87, 0x455a14ed,
  0xa9e3e905, 0xfcefa3f8, 0x676f02d9, 0x8d2a4c8a,
  0xfffa3942, 0x8771f681, 0x6d9d6122, 0xfde5380c,
  0xa4beea44, 0x4bdecfa9, 0xf6bb4b60, 0xbebfbc70,
  0x289b7ec6, 0xeaa127fa, 0xd4ef3085, 0x04881d05,
  0xd9d4d039, 0xe6db99e5, 0x1fa27cf8, 0xc4ac5665,
  0xf4292244, 0x432aff97, 0xab9423a7, 0xfc93a039,
  0x655b59c3, 0x8f0ccc92, 0xffeff47d, 0x85845dd1,
  0x6fa87e4f, 0xfe2ce6e0, 0xa3014314, 0x4e0811a1,
  0xf7537e82, 0xbd3af235, 0x2ad7d2bb, 0xeb86d391]

/-- The 64 per-round left-rotation amounts. -/
def roundS : List Nat := [
  7,12,17,22,7,12,17,22,7,12,17,22,7,12,17,22,
  5,9,14,20,5,9,14,20,5,9,14,20,5,9,14,20,
  4,11,16,23,4,11,16,23,4,11,16,23,4,11,16,23,
  6,10,15,21,6,10,15,21,6,10,15,21,6,10,15,21]

def md5Round (w : List Nat) (i : Nat) (st : Nat × Nat × Nat × Nat) :
    Nat × Nat × Nat × Nat :=
  let (a, b, c, d) := st
  let (f, g) :=
    if i < 16 then ((b &&& c) ||| (not32 b &&& d), i)
    else if i < 32 then ((d &&& b) ||| (not32 d &&& c), (5 * i + 1) % 16)
    else if i < 48 then (b ^^^ c ^^^ d, (3 * i + 5) % 16)
    else (c ^^^ (b ||| not32 d), (7 * i) % 16)
  let f2 := (f + a + roundK.getD i 0 + w.getD g 0) % m32
  (d, (b + rotl32 f2 (roundS.getD i 0)) % m32, b, c)

def md5Rounds (w : List Nat) : Nat → (Nat × Nat × Nat × Nat) → Nat × Nat × Nat × Nat
  | 0, st => st
  | n + 1, st => md5Rounds w n (md5Round w (64 - (n + 1)) st)

/-- Split a byte list into little-endian 32-bit words. -/
def leWords : List Nat → List Nat
  | b0 :: b1 :: b2 :: b3 :: rest =>
    (b0 + b1 * 256 + b2 * 65536 + b3 * 16777216) :: leWords rest
  | _ => []

def md5Block (st : Nat × Nat × Nat × Nat) (block : List Nat) :
    Nat × Nat × Nat × Nat :=
  let w := leWords block
  let (a, b, c, d) := md5Rounds w 64 st
  let (a0, b0, c0, d0) := st
  ((a0 + a) % m32, (b0 + b) % m32, (c0 + c) % m32, (d0 + d) % m32)

def chunksAux : Nat → List Nat → List (List Nat)
  | 0, _ => []
  | _, [] => []
  | fuel + 1, b :: rest => ((b :: rest).take 64) :: chunksAux fuel ((b :: rest).drop 64)

/-- Split a byte list into 64-byte blocks. -/
def chunks64 (l : List Nat) : List (List Nat) := chunksAux l.length l

def lenBytes : Nat → Nat → List Nat
  | 0, _ => []
  | n + 1, v => (v % 256) :: lenBytes n (v / 256)

/-- MD5 padding: a 0x80 byte, zeros to 56 mod 64, then the bit length
as eight little-endian bytes. -/
def md5Pad (msg : List Nat) : List Nat :=
  let L := msg.length
  let padLen := (119 - (L % 64)) % 64 + 1
  msg ++ (128 :: List.replicate (padLen - 1) 0) ++ lenBytes 8 (8 * L)

def md5Digest (msg : List Nat) : Nat × Nat × Nat × Nat :=
  (chunks64 (md5Pad msg)).foldl md5Block
    (0x67452301, 0xefcdab89, 0x98badcfe, 0x10325476)

def hexChar (n : Nat) : Char :=
  if n < 10 then Char.ofNat (48 + n) else Char.ofNat (87 + n)

def byteHex (b : Nat) : List Char := [hexChar (b / 16), hexChar (b % 16)]

def wordHexLE (w : Nat) : List Char :=
  byteHex (w % 256) ++ byteHex (w / 256 % 256) ++
    byteHex (w / 65536 % 256) ++ byteHex (w / 16777216 % 256)

/-- The 32-character hex digest of a byte string. -/
def md5Hex (msg : List Nat) : List Char :=
  let (a, b, c, d) := md5Digest msg
  wordHexLE a ++ wordHexLE b ++ wordHexLE c ++ wordHexLE d

/-- UTF-8 encoding of one character (Python `str.encode()`). -/
def utf8Char (c : Char) : List Nat :=
  let n := c.toNat
  if n < 0x80 then [n]
  else if n < 0x800 then [0xc0 ||| (n >>> 6), 0x80 ||| (n &&& 0x3f)]
  else if n < 0x10000 then
    [0xe0 ||| (n >>> 12), 0x80 ||| ((n >>> 6) &&& 0x3f), 0x80 ||| (n &&& 0x3f)]
  else
    [0xf0 ||| (n >>> 18), 0x80 ||| ((n >>> 12) &&& 0x3f),
      0x80 ||| ((n >>> 6) &&& 0x3f), 0x80 ||| (n &&& 0x3f)]

def utf8Encode (l : List Char) : List Nat :=
  (l.map utf8Char).flatten

/-- Python `hashlib.md5(text.encode()).hexdigest()`. -/
def md5HexOfText (l : List Char) : List Char :=
  md5Hex (utf8Encode l)

end MD5

/-! ## A model of parsed JSON values (the result of Python `json.load`) -/

inductive Json where
  | str (s : List Char)
  | num (n : Int)
  | bool (b : Bool)
  | null
  | arr (items : List Json)
  | obj (fields : List (List Char × Json))

/-- Python truthiness of a JSON value (`if orig and trans:`). -/
def Json.truthy : Json → Bool
  | .str s => !s.isEmpty
  | .num n => n != 0
  | .bool b => b
  | .null => false
  | .arr items => !items.isEmpty
  | .obj fields => !fields.isEmpty

/-! ## src/internal/pdf/translate_pdf.py -/

namespace InternalPT

open PyStr

/-- The cache mapping of `TranslationCache` (translate_pdf.py:42-71):
a dict from MD5 hex keys to translated strings. -/
def Cache : Type := List (List Char × List Char)

/-- TranslationCache.get (translate_pdf.py:65-67):
`key = hashlib.md5(text.encode()).hexdigest(); return self.cache.get(key)`. -/
def TranslationCache.get (c : Cache) (text : List Char) : Option (List Char) :=
  dictGet c (MD5.md5HexOfText text)

/-- TranslationCache.set (translate_pdf.py:69-71):
`key = hashlib.md5(text.encode()).hexdigest(); self.cache[key] = translation`. -/
def TranslationCache.set (c : Cache) (text translation : List Char) : Cache :=
  dictSet c (MD5.md5HexOfText text) translation

/-- TranslationCache.load (translate_pdf.py:49-55).  The file contents are
modelled as the result of `json.load`: `none` when the contents are
malformed (not parseable), in which case the bare `except` leaves
`self.cache = {}`.  A well-formed flat object is stored as the mapping
(non-string values never occur in the claims' scope and are dropped;
the Python code stores the raw parsed value). -/
def TranslationCache.loadedCache (file : Option Json) : Cache :=
  match file with
  | none => []
  | some (.obj fields) =>
    fields.foldl (fun m p =>
      match p.2 with
      | .str v => dictSet m p.1 v
      | _ => m) []
  | some _ => []

/-- The strong math symbols of is_formula (translate_pdf.py:77). -/
def strongMathChars : List Char := ['∫', '∑', '∏', '√', '∂', '∇']

/-- The extended math symbol set of is_formula (translate_pdf.py:98). -/
def mathSymbolChars : List Char :=
  ("±×÷≤≥≠≈∞∈∉⊂⊃∪∩∧∨¬∀∃αβγδεζηθικλμνξοπρστυφχψωΓΔΘΛΞΠΣΦΨΩ").toList

/-- Search for the regex `\\[a-zA-Z]+`: a backslash followed by an ASCII
letter occurs somewhere in the text. -/
def hasBackslashCmd : List Char → Bool
  | a :: b :: rest => ((a == '\\') && b.isAlpha) || hasBackslashCmd (b :: rest)
  | _ => false

/-- Whether `rest` is a nonempty digit run followed by a single `)`. -/
def digitsThenParen (rest : List Char) : Bool :=
  let ds := rest.takeWhile (fun c => c.isDigit)
  !ds.isEmpty && (rest.drop ds.length == [')'])

/-- Full match of `^\s*\(\d+\)\s*$|^\s*\([A-Z]\.\d+\)\s*$` against the
already-stripped text (translate_pdf.py:88). -/
def isEqNumber (l : List Char) : Bool :=
  match l with
  | '(' :: rest =>
    digitsThenParen rest ||
      (match rest with
       | u :: '.' :: rest2 => u.isUpper && digitsThenParen rest2
       | _ => false)
  | _ => false

/-- Count of non-overlapping matches of `[a-zA-Z][_^]\d`
(`re.findall`, translate_pdf.py:93). -/
def subPatternCount : List Char → Nat
  | a :: b :: c :: rest =>
    if a.isAlpha && ((b == '_') || (b == '^')) && c.isDigit then
      subPatternCount rest + 1
    else
      subPatternCount (b :: c :: rest)
  | _ => 0

/-- is_formula (translate_pdf.py:74-105).  The float threshold
`math_count / len(text) > 0.4` is modelled exactly as `5 * count > 2 * len`. -/
def is_formula (t : List Char) : Bool :=
  if t.any (fun c => strongMathChars.contains c) then true
  else if hasBackslashCmd t then true
  else if isEqNumber (pyStrip t) then true
  else if t.length < 50 && decide (2 < subPatternCount t) then true
  else if decide (0 < t.length) &&
      decide (5 * t.countP (fun c => mathSymbolChars.contains c) > 2 * t.length) then true
  else false

/-- is_line_number (translate_pdf.py:108-115).  The float threshold
`number_lines / len(lines) > 0.7` is modelled exactly as
`10 * number_lines > 7 * len(lines)`. -/
def is_line_number (t : List Char) : Bool :=
  let lines := splitLinesLF (pyStrip t)
  if lines.length < 3 then false
  else decide (10 * (lines.countP (fun l => pyIsDigitStr (pyStrip l))) > 7 * lines.length)

/-- Characters in the CJK range `'一' <= c <= '鿿'`. -/
def isChineseChar (c : Char) : Bool :=
  (0x4e00 ≤ c.toNat) && (c.toNat ≤ 0x9fff)

/-- should_translate (translate_pdf.py:127-153).  Thresholds
`alpha_count / len(text) < 0.3` and `chinese_count > len(text) * 0.3` are
modelled exactly as cross-multiplied integer comparisons. -/
def should_translate (text : List Char) : Bool :=
  let t := pyStrip text
  if t.isEmpty || decide (t.length < 3) then false
  else if is_line_number t then false
  else if is_formula t then false
  else if decide (0 < t.length) &&
      decide (10 * t.countP (fun c => c.isAlpha) < 3 * t.length) then false
  else if decide (10 * t.countP isChineseChar > 3 * t.length) then false
  else true

/-- The outcome of the HTTP round trip made by translate_text
(translate_pdf.py:179-187), at the boundary of the `requests` library:
either a transport-level error (connection failure, timeout — anything
raised by `requests.post`), or a final response with a status code and
an optional parsed JSON body (`none` when `.json()` fails to parse). -/
inductive ServiceResult where
  | netError
  | response (status : Nat) (body : Option Json)

/-- Extraction `result["choices"][0]["message"]["content"].strip()`
(translate_pdf.py:187); any shape mismatch raises in Python and is
caught by the enclosing `except`, hence `none`. -/
def extractContent (j : Json) : Option (List Char) :=
  match j with
  | .obj fields =>
    match dictGet fields ("choices".toList) with
    | some (.arr (first :: _)) =>
      match first with
      | .obj msgFields =>
        match dictGet msgFields ("message".toList) with
        | some (.obj contentFields) =>
          match dictGet contentFields ("content".toList) with
          | some (.str s) => some (pyStrip s)
          | _ => none
        | _ => none
      | _ => none
    | _ => none
  | _ => none

/-- translate_text (translate_pdf.py:156-190).  `response.raise_for_status()`
raises exactly for status codes 400-599 (the `requests` contract); every
exception inside the `try` is caught and yields `None`. -/
def translate_text (r : ServiceResult) : Option (List Char) :=
  match r with
  | .netError => none
  | .response status body =>
    if 400 ≤ status && status < 600 then none
    else
      match body with
      | none => none
      | some j => extractContent j

/-- Per-block outcome of the main loop of translate_pdf
(translate_pdf.py:246-263). -/
inductive BlockResult where
  | filtered (text : List Char)
  | leftOriginal (text : List Char)
  | rendered (text translation : List Char)

/-- One iteration of the block loop (translate_pdf.py:246-263): classifier
gate, cache lookup, service call on miss, cache update on success; a block
without a translation is left untouched (`continue`). -/
def stepBlock (c : Cache) (text : List Char) (svc : ServiceResult) :
    BlockResult × Cache :=
  if !(should_translate text) then (.filtered text, c)
  else
    match TranslationCache.get c text with
    | some t => (.rendered text t, c)
    | none =>
      match translate_text svc with
      | some t => (.rendered text t, TranslationCache.set c text t)
      | none => (.leftOriginal text, c)

/-- The block loop over a whole run: each block is processed in turn and
the cache is threaded through. -/
def processBlocks (c : Cache) : List (List Char × ServiceResult) → List BlockResult × Cache
  | [] => ([], c)
  | (text, svc) :: rest =>
    let r := stepBlock c text svc
    let rs := processBlocks r.2 rest
    (r.1 :: rs.1, rs.2)

/-- BASE_FONT_SIZE (translate_pdf.py:39). -/
def BASE_FONT_SIZE : ℚ := 12

/-- The average original span font size (translate_pdf.py:267). -/
def avgFontSize (sizes : List ℚ) : ℚ :=
  if sizes.isEmpty then BASE_FONT_SIZE else sizes.sum / sizes.length

/-- The first-attempt rendering font size
`max(BASE_FONT_SIZE, avg_font_size * 1.1)` (translate_pdf.py:269). -/
def blockFontSize (sizes : List ℚ) : ℚ :=
  max BASE_FONT_SIZE (avgFontSize sizes * (11 / 10))

/-- The font size used by the last insert_textbox attempt
(translate_pdf.py:283-314): the first attempt at `blockFontSize`, a retry
at 0.85x when the text did not fit, and a final attempt at
`BASE_FONT_SIZE * 0.9`. -/
def attemptSize (sizes : List ℚ) (fit1 fit2 : Bool) : ℚ :=
  if fit1 then blockFontSize sizes
  else if fit2 then blockFontSize sizes * (85 / 100)
  else BASE_FONT_SIZE * (9 / 10)

end InternalPT

/-! ## src/internal/pdf/overlay_pdf.py -/

namespace OverlayPDF

open PyStr

/-- The cache mapping of overlay_pdf.py's `TranslationCache` (95-130):
the same MD5-keyed dict as in translate_pdf.py. -/
def Cache : Type := List (List Char × List Char)

/-- TranslationCache.get (overlay_pdf.py:116-118). -/
def TranslationCache.get (c : Cache) (text : List Char) : Option (List Char) :=
  dictGet c (MD5.md5HexOfText text)

/-- TranslationCache.set (overlay_pdf.py:120-122). -/
def TranslationCache.set (c : Cache) (text translation : List Char) : Cache :=
  dictSet c (MD5.md5HexOfText text) translation

/-- One element of the translations JSON array consumed by
load_from_translations (overlay_pdf.py:124-130); absent fields default
to the empty string via `t.get(..., '')`. -/
structure TransEntry where
  text : List Char
  translated_text : List Char
deriving DecidableEq

/-- TranslationCache.load_from_translations (overlay_pdf.py:124-130):
strip both fields and `set` every entry whose stripped fields are both
nonempty. -/
def load_from_translations (c : Cache) (ts : List TransEntry) : Cache :=
  ts.foldl (fun acc t =>
    let orig := pyStrip t.text
    let trans := pyStrip t.translated_text
    if !orig.isEmpty && !trans.isEmpty then
      TranslationCache.set acc orig trans
    else acc) c

/-- TranslationCache.load (overlay_pdf.py:103-109), identical to the one
in translate_pdf.py: `none` models a malformed (unparseable) file, in
which case the bare `except` leaves the cache empty; a flat JSON object
is stored as the mapping. -/
def TranslationCache.loadedCache (file : Option Json) : Cache :=
  match file with
  | none => []
  | some (.obj fields) =>
    fields.foldl (fun m p =>
      match p.2 with
      | .str v => dictSet m p.1 v
      | _ => m) []
  | some _ => []

/-- The flat key-to-translation file shape corresponding to a list of
translation entries: for each entry the key is the MD5 hex digest of the
stripped original text — the key transform used by `set` — and the value
is the stripped translation. -/
def flatShapeOf (ts : List TransEntry) : Json :=
  Json.obj (ts.map (fun t =>
    (MD5.md5HexOfText (pyStrip t.text), Json.str (pyStrip t.translated_text))))

end OverlayPDF

/-! ## src/scripts/pdf_translate.py (line-based script) -/

namespace ScriptsPT

open PyStr

/-- The cache built by load_cache: normalized original text mapped to the
stored translation value. -/
def Cache : Type := List (List Char × Json)

/-- Adding one element of `data['entries']` to the cache
(pdf_translate.py:41-46): `e.get('original', '')`, `e.get('translation', '')`,
keep the entry when both are truthy, key it by the whitespace-stripped
original.  A non-dict element, or a truthy non-string `original`, raises
in Python (`.get` / `re.sub` on the wrong type), modelled as `.error`. -/
def addEntry (c : Cache) (e : Json) : Except Unit Cache :=
  match e with
  | .obj fields =>
    let orig := (dictGet fields ("original".toList)).getD (.str [])
    let trans := (dictGet fields ("translation".toList)).getD (.str [])
    if orig.truthy && trans.truthy then
      match orig with
      | .str o => .ok (dictSet c (normalize_text o) trans)
      | _ => .error ()
    else .ok c
  | _ => .error ()

def addEntries (c : Cache) : List Json → Except Unit Cache
  | [] => .ok c
  | e :: rest =>
    match addEntry c e with
    | .ok c2 => addEntries c2 rest
    | .error u => .error u

/-- load_cache (pdf_translate.py:34-47).  The file contents are the result
of `json.load`: `none` when the file is malformed, in which case the
exception propagates (there is no handler) — modelled as `.error`.  A
parsed value that is a dict containing `'entries'` is folded entry by
entry; any other shape yields the empty cache.  A non-list `'entries'`
value raises on iteration — except an empty string or empty dict, which
iterates zero times and leaves the cache empty. -/
def load_cache (file : Option Json) : Except Unit Cache :=
  match file with
  | none => .error ()
  | some d =>
    match d with
    | .obj fields =>
      match dictGet fields ("entries".toList) with
      | some (.arr es) => addEntries [] es
      | some (.str s) => if s.isEmpty then .ok [] else .error ()
      | some (.obj fs2) => if fs2.isEmpty then .ok [] else .error ()
      | some _ => .error ()
      | none => .ok []
    | _ => .ok []

/-- The key list passed to find_translation (pdf_translate.py:109):
`sorted(cache.keys(), key=len, reverse=True)`. -/
def cacheKeysSorted (c : Cache) : List (List Char) :=
  sortByLenDesc (c.map (fun p => p.1))

/-- Fuzzy step "缓存在 PDF 中" (pdf_translate.py:66-68): the first key of
length >= 10 that is a substring of the normalized text. -/
def substringKeyStep (n : List Char) (ks : List (List Char)) : Option (List Char) :=
  ks.find? (fun k => decide (10 ≤ k.length) && isSubstringOf k n)

/-- Fuzzy step "PDF 在缓存中" (pdf_translate.py:71-74): when the normalized
text has length >= 10, the first key containing it. -/
def containsKeyStep (n : List Char) (ks : List (List Char)) : Option (List Char) :=
  if 10 ≤ n.length then ks.find? (fun k => isSubstringOf n k) else none

/-- Whether some length-12 window `normalized[i:i+12]`, `i` ranging over
`range(len(normalized) - 11)`, is a substring of the key
(pdf_translate.py:80-81). -/
def windowHit (n k : List Char) : Bool :=
  (List.range (n.length - 11)).any (fun i => isSubstringOf ((n.drop i).take 12) k)

/-- Fuzzy step "滑动窗口匹配" (pdf_translate.py:77-82). -/
def windowKeyStep (n : List Char) (ks : List (List Char)) : Option (List Char) :=
  if 12 ≤ n.length then
    ks.find? (fun k => decide (12 ≤ k.length) && windowHit n k)
  else none

/-- Fuzzy step "前缀匹配" (pdf_translate.py:85-95): the first key such that
`min_len >= 10` and the common prefix with the normalized text has length
>= 10. -/
def prefixKeyStep (n : List Char) (ks : List (List Char)) : Option (List Char) :=
  ks.find? (fun k =>
    decide (10 ≤ Nat.min n.length k.length) && decide (10 ≤ commonPrefixLen n k))

/-- The first key produced by the four fuzzy steps, in program order. -/
def fuzzyMatchedKey (n : List Char) (ks : List (List Char)) : Option (List Char) :=
  match substringKeyStep n ks with
  | some k => some k
  | none =>
    match containsKeyStep n ks with
    | some k => some k
    | none =>
      match windowKeyStep n ks with
      | some k => some k
      | none => prefixKeyStep n ks

/-- find_translation (pdf_translate.py:55-97).  The Python code returns
`cache[key]` for the first matching key; under the caller's invariant
(`cache_keys` are exactly the cache's keys) the lookup always succeeds,
and it is modelled with the total `dictGet`. -/
def find_translation (text : List Char) (cache : Cache)
    (cacheKeys : List (List Char)) : Option Json :=
  let normalized := normalize_text text
  if normalized.isEmpty || decide (normalized.length < 3) then none
  else
    match dictGet cache normalized with
    | some v => some v
    | none =>
      match fuzzyMatchedKey normalized cacheKeys with
      | some k => dictGet cache k
      | none => none

/-- Per-line rendering font size (pdf_translate.py:175-180): 9 when the
line has no spans; otherwise the first span's size (default 9) scaled by
0.9 and clamped into [6, 12]. -/
def lineFontSize : Option (Option ℚ) → ℚ
  | none => 9
  | some sz => min (max ((sz.getD 9) * (9 / 10)) 6) 12

end ScriptsPT

/-! ## Spec-side description of the fuzzy lookup (§4.3 of the spec),
written from the spec's words, to be compared with `find_translation`. -/

namespace FuzzySpec

open PyStr

/-- The spec's length-12 windows of the normalized text. -/
def windows12 (n : List Char) : List (List Char) :=
  (List.range (n.length - 11)).map (fun i => (n.drop i).take 12)

/-- Spec §4.3 steps 3-6, keys iterated in descending length order, first
match wins: (3) any cache key of length >= 10 that is a substring of the
normalized text; (4) if the normalized text has length >= 10, any cache
key containing it; (5) if the normalized text has length >= 12, any
length-12 window of it that is a substring of a cache key of length
>= 12; (6) any cache key whose common prefix with the normalized text
has length >= 10. -/
def specFuzzyKey (n : List Char) (ks : List (List Char)) : Option (List Char) :=
  firstSome
    [ks.find? (fun k => decide (10 ≤ k.length) && isSubstringOf k n),
     if 10 ≤ n.length then ks.find? (fun k => isSubstringOf n k) else none,
     if 12 ≤ n.length then
       ks.find? (fun k => decide (12 ≤ k.length) &&
         (windows12 n).any (fun w => isSubstringOf w k))
     else none,
     ks.find? (fun k => decide (10 ≤ commonPrefixLen n k))]

/-- Spec §4.3 `findFuzzy`: reject below length 3, then exact match, then
the fuzzy steps; the winning key's stored translation is returned. -/
def findFuzzySpec (text : List Char) (cache : ScriptsPT.Cache) : Option Json :=
  let n := ScriptsPT.normalize_text text
  if n.length < 3 then none
  else
    match dictGet cache n with
    | some v => some v
    | none =>
      match specFuzzyKey n (ScriptsPT.cacheKeysSorted cache) with
      | some k => dictGet cache k
      | none => none

end FuzzySpec

/-! ## src/internal/pdf/python_overlay.py -/

namespace PyOverlay

/-- The per-block font size used by overlay_text_on_pdf
(python_overlay.py:83-86): `block.get('font_size', 10)` clamped by
`max(8, min(font_size, 16))`. -/
def blockFontSize (fs : Option ℚ) : ℚ :=
  max 8 (min (fs.getD 10) 16)

end PyOverlay

/-! ## src/internal/pdf/write_translations.py -/

namespace WriteTrans

open PyStr

/-- A pymupdf rectangle. -/
structure Rect where
  x0 : ℚ
  y0 : ℚ
  x1 : ℚ
  y1 : ℚ
deriving DecidableEq

/-- `rect & page.rect` (pymupdf rectangle intersection). -/
def Rect.inter (a b : Rect) : Rect :=
  ⟨max a.x0 b.x0, max a.y0 b.y0, min a.x1 b.x1, min a.y1 b.y1⟩

/-- pymupdf `rect.is_empty`: width or height not positive. -/
def Rect.isEmptyRect (r : Rect) : Bool :=
  decide (r.x1 ≤ r.x0) || decide (r.y1 ≤ r.y0)

/-- A drawing operation applied to a page by the overlay loop. -/
inductive PageOp where
  | fillWhiteRect (r : Rect)
  | textbox (r : Rect) (text : List Char) (size : ℚ)
  | htmlbox (r : Rect) (text : List Char) (styled : Bool)

/-- One page of the open document: its media box and the operations the
loop has applied to it. -/
structure PageState where
  rect : Rect
  ops : List PageOp

/-- The run state of write_translations: the document's pages and the two
counters (write_translations.py:49-50). -/
structure WTState where
  doc : List PageState
  translated_count : Nat
  skipped_count : Nat

/-- One JSON block (write_translations.py:52-69); `.get` defaults
(page 0, x 0, y 0, width 100, height 20) are applied at decode time. -/
structure WBlock where
  translated_text : List Char
  page : Int
  x : ℚ
  y : ℚ
  width : ℚ
  height : ℚ

/-- Behaviour of the external pymupdf rendering calls for one block:
each insert_textbox either raises or reports a return code, and each
insert_htmlbox either succeeds or raises. -/
structure RenderOutcome where
  tb1 : Except Unit Int
  tb2 : Except Unit Int
  html1Ok : Bool
  html2Ok : Bool

/-- Python `doc[page_num]` index resolution (negative indices count from
the end; an index out of range raises). -/
def pageIdx (count : Nat) (i : Int) : Option Nat :=
  if 0 ≤ i then (if i < (count : Int) then some i.toNat else none)
  else (if -(count : Int) ≤ i then some (((count : Int) + i).toNat) else none)

def FIXED_FONT_SIZE : ℚ := 10

/-- The htmlbox fallback chain (write_translations.py:100-109): styled
htmlbox, then plain htmlbox, then give up (`continue`), leaving the page
white-filled and the translated counter untouched. -/
def htmlChain (ro : RenderOutcome) (st : WTState) (i : Nat) (pg : PageState)
    (baseOps : List PageOp) (clip : Rect) (tt : List Char) : WTState :=
  if ro.html1Ok then
    { st with doc := st.doc.set i { pg with ops := baseOps ++ [.htmlbox clip tt true] },
              translated_count := st.translated_count + 1 }
  else if ro.html2Ok then
    { st with doc := st.doc.set i { pg with ops := baseOps ++ [.htmlbox clip tt false] },
              translated_count := st.translated_count + 1 }
  else
    { st with doc := st.doc.set i { pg with ops := baseOps } }

/-- One iteration of the block loop of write_translations
(write_translations.py:52-111): skip blocks without a translation
(counting them), skip blocks whose page index is past the document
(`continue`), clip the box to the page (skip when empty), white-fill,
then the textbox/htmlbox attempt chain.  `none` models an uncaught
exception (a negative page index out of range). -/
def writeStep (ro : RenderOutcome) (st : WTState) (b : WBlock) : Option WTState :=
  let tt := pyStrip b.translated_text
  if tt.isEmpty then some { st with skipped_count := st.skipped_count + 1 }
  else if (st.doc.length : Int) ≤ b.page then some st
  else
    match pageIdx st.doc.length b.page with
    | none => none
    | some i =>
      match st.doc.get? i with
      | none => none
      | some pg =>
        let rect : Rect := ⟨b.x, b.y, b.x + b.width, b.y + b.height⟩
        let clip := Rect.inter rect pg.rect
        if clip.isEmptyRect then some st
        else
          let baseOps := pg.ops ++ [PageOp.fillWhiteRect clip]
          match ro.tb1 with
          | .ok rc1 =>
            if 0 ≤ rc1 then
              some { st with
                doc := st.doc.set i { pg with ops := baseOps ++ [.textbox clip tt FIXED_FONT_SIZE] },
                translated_count := st.translated_count + 1 }
            else
              match ro.tb2 with
              | .ok rc2 =>
                some { st with
                  doc := st.doc.set i { pg with ops :=
                    baseOps ++ (if 0 ≤ rc2 then [PageOp.textbox clip tt (FIXED_FONT_SIZE - 2)] else []) },
                  translated_count := st.translated_count + 1 }
              | .error _ => some (htmlChain ro st i pg baseOps clip tt)
          | .error _ => some (htmlChain ro st i pg baseOps clip tt)

/-- The whole block loop of write_translations. -/
def write_translations (st : WTState) :
    List (WBlock × RenderOutcome) → Option WTState
  | [] => some st
  | (b, ro) :: rest =>
    match writeStep ro st b with
    | some st2 => write_translations st2 rest
    | none => none

end WriteTrans

/-! # Theorems -/

/-! ## Lemmas about the string primitives -/

namespace PyStr

theorem dropWhile_dropWhile (p : Char → Bool) (l : List Char) :
    (l.dropWhile p).dropWhile p = l.dropWhile p := by
  induction l with
  | nil => rfl
  | cons a l ih =>
    by_cases h : p a
    · simp [List.dropWhile_cons, h, ih]
    · simp [List.dropWhile_cons, h]

theorem dropTrailingSpaces_idem (l : List Char) :
    dropTrailingSpaces (dropTrailingSpaces l) = dropTrailingSpaces l := by
  induction l with
  | nil => rfl
  | cons c rest ih =>
    by_cases h : (dropTrailingSpaces rest).isEmpty && pyIsSpace c
    · simp [dropTrailingSpaces, h]
    · simp [dropTrailingSpaces, h, ih]

theorem dropTrailingSpaces_head? (l : List Char)
    (h : dropTrailingSpaces l ≠ []) :
    (dropTrailingSpaces l).head? = l.head? := by
  cases l with
  | nil => rfl
  | cons c rest =>
    by_cases hc : (dropTrailingSpaces rest).isEmpty && pyIsSpace c
    · exact absurd (by simp [dropTrailingSpaces, hc]) h
    · simp [dropTrailingSpaces, hc]

theorem dropWhile_of_head? (p : Char → Bool) (l : List Char)
    (h : ∀ c, l.head? = some c → p c = false) :
    l.dropWhile p = l := by
  cases l with
  | nil => rfl
  | cons a rest => simp [List.dropWhile_cons, h a rfl]

theorem head?_dropWhile_false (p : Char → Bool) (l : List Char) :
    ∀ c, (l.dropWhile p).head? = some c → p c = false := by
  induction l with
  | nil => intro c hc; simp at hc
  | cons a rest ih =>
    intro c hc
    by_cases h : p a
    · exact ih c (by simpa [List.dropWhile_cons, h] using hc)
    · simp only [List.dropWhile_cons, h, if_neg, Bool.false_eq_true,
        not_false_iff, List.head?_cons, Option.some.injEq] at hc
      simp [← hc, h]

/-- Python `strip` is idempotent. -/
theorem pyStrip_idem (l : List Char) : pyStrip (pyStrip l) = pyStrip l := by
  unfold pyStrip
  have hdw : (dropTrailingSpaces ((l.dropWhile pyIsSpace))).dropWhile pyIsSpace
      = dropTrailingSpaces (l.dropWhile pyIsSpace) := by
    by_cases hne : dropTrailingSpaces (l.dropWhile pyIsSpace) = []
    · simp [hne]
    · refine dropWhile_of_head? _ _ ?_
      intro c hc
      rw [dropTrailingSpaces_head? _ hne] at hc
      exact head?_dropWhile_false pyIsSpace l c hc
  rw [hdw, dropTrailingSpaces_idem]

theorem dictGet_dictSet {α : Type} (d : List (List Char × α)) (k : List Char) (v : α) :
    dictGet (dictSet d k v) k = some v := by
  induction d with
  | nil =>
    unfold dictGet dictSet
    simp [List.find?]
  | cons p rest ih =>
    by_cases h : p.1 == k
    · unfold dictGet dictSet
      rw [if_pos h]
      simp [List.find?, h]
    · unfold dictGet dictSet
      rw [if_neg (by simpa using h)]
      simp only [List.find?, h]
      exact ih

end PyStr

/-- C8: `normalize_text` is idempotent, and its output contains no
whitespace character of any class; in particular space, tab and newline
are all in the whitespace class that is removed (runs of whitespace are
deleted entirely, not replaced by a space). -/
theorem C8_normalize_idempotent_no_whitespace (s : List Char) :
    ScriptsPT.normalize_text (ScriptsPT.normalize_text s) = ScriptsPT.normalize_text s ∧
    (ScriptsPT.normalize_text s).all (fun c => !(PyStr.pyIsSpace c)) = true ∧
    PyStr.pyIsSpace ' ' = true ∧ PyStr.pyIsSpace '\t' = true ∧
    PyStr.pyIsSpace '\n' = true := by
  refine ⟨?_, ?_, by decide, by decide, by decide⟩
  · unfold ScriptsPT.normalize_text
    rw [List.filter_filter]
    simp
  · unfold ScriptsPT.normalize_text
    simp [List.all_eq_true]

/-! ## Helper lemmas for the fuzzy-lookup claims -/

theorem find?_congrPred {α : Type} (p q : α → Bool) (h : ∀ a, p a = q a) :
    ∀ l : List α, l.find? p = l.find? q := by
  intro l
  induction l with
  | nil => rfl
  | cons a l ih =>
    rw [List.find?_cons, List.find?_cons, h a, ih]

theorem any_over_map {α β : Type} (f : α → β) (p : β → Bool) (l : List α) :
    (l.map f).any p = l.any (fun a => p (f a)) := by
  induction l with
  | nil => rfl
  | cons a l ih => simp [List.any_cons, ih]

theorem commonPrefixLen_le_left (a b : List Char) :
    PyStr.commonPrefixLen a b ≤ a.length := by
  induction a generalizing b with
  | nil => cases b <;> simp [PyStr.commonPrefixLen]
  | cons x xs ih =>
    cases b with
    | nil => simp [PyStr.commonPrefixLen]
    | cons y ys =>
      by_cases h : x == y
      · simpa [PyStr.commonPrefixLen, h] using ih ys
      · simp [PyStr.commonPrefixLen, h]

theorem commonPrefixLen_le_right (a b : List Char) :
    PyStr.commonPrefixLen a b ≤ b.length := by
  induction a generalizing b with
  | nil => cases b <;> simp [PyStr.commonPrefixLen]
  | cons x xs ih =>
    cases b with
    | nil => simp [PyStr.commonPrefixLen]
    | cons y ys =>
      by_cases h : x == y
      · simpa [PyStr.commonPrefixLen, h] using ih ys
      · simp [PyStr.commonPrefixLen, h]

/-- The explicit `min_len >= 10` guard of the prefix-match step is
subsumed by `prefix_len >= 10`, since the common prefix is no longer than
either string. -/
theorem prefixStep_pred_eq (n k : List Char) :
    (decide (10 ≤ Nat.min n.length k.length) &&
      decide (10 ≤ PyStr.commonPrefixLen n k)) =
    decide (10 ≤ PyStr.commonPrefixLen n k) := by
  by_cases h : 10 ≤ PyStr.commonPrefixLen n k
  · have h1 : 10 ≤ n.length := le_trans h (commonPrefixLen_le_left n k)
    have h2 : 10 ≤ k.length := le_trans h (commonPrefixLen_le_right n k)
    simp [h, Nat.le_min, h1, h2]
  · simp [h]

theorem windows_any_eq (n k : List Char) :
    (FuzzySpec.windows12 n).any (fun w => PyStr.isSubstringOf w k) =
      ScriptsPT.windowHit n k := by
  unfold FuzzySpec.windows12 ScriptsPT.windowHit
  rw [any_over_map]

theorem firstSome_four {α : Type} (o1 o2 o3 o4 : Option α) :
    PyStr.firstSome [o1, o2, o3, o4] =
      (match o1 with
       | some k => some k
       | none =>
         match o2 with
         | some k => some k
         | none =>
           match o3 with
           | some k => some k
           | none => o4) := by
  cases o1 <;> cases o2 <;> cases o3 <;> cases o4 <;> rfl

theorem fuzzyKey_eq_spec (n : List Char) (ks : List (List Char)) :
    ScriptsPT.fuzzyMatchedKey n ks = FuzzySpec.specFuzzyKey n ks := by
  unfold ScriptsPT.fuzzyMatchedKey FuzzySpec.specFuzzyKey
  rw [firstSome_four]
  have h5 : (if 12 ≤ n.length then
      ks.find? (fun k => decide (12 ≤ k.length) &&
        (FuzzySpec.windows12 n).any (fun w => PyStr.isSubstringOf w k))
    else none) = ScriptsPT.windowKeyStep n ks := by
    unfold ScriptsPT.windowKeyStep
    by_cases h : 12 ≤ n.length
    · simp only [h, if_pos]
      exact find?_congrPred _ _ (fun k => by rw [windows_any_eq]) ks
    · simp [h]
  have h6 : ks.find? (fun k => decide (10 ≤ PyStr.commonPrefixLen n k)) =
      ScriptsPT.prefixKeyStep n ks := by
    unfold ScriptsPT.prefixKeyStep
    exact (find?_congrPred _ _ (fun k => prefixStep_pred_eq n k) ks).symm
  rw [h5, h6]
  unfold ScriptsPT.substringKeyStep ScriptsPT.containsKeyStep
  cases List.find? (fun k => decide (10 ≤ k.length) && PyStr.isSubstringOf k n) ks with
  | some k => rfl
  | none =>
    cases (if 10 ≤ n.length then List.find? (fun k => PyStr.isSubstringOf n k) ks else none) with
    | some k => rfl
    | none =>
      cases ScriptsPT.windowKeyStep n ks with
      | some k => rfl
      | none => rfl

/-- C1: `find_translation`, applied with the caller's descending-length
key order (pdf_translate.py:109), implements exactly the spec's staged
fuzzy lookup (reject below length 3; exact match; substring; reverse
containment; length-12 sliding window; common prefix >= 10 — first match
wins, keys scanned longest-first at every step); and on the claim's tie
example, with keys of ten and fourteen `A`s both cached, the
fourteen-`A` query resolves to the fourteen-`A` key's translation. -/
theorem C1_find_translation_steps :
    (∀ (text : List Char) (cache : ScriptsPT.Cache),
      ScriptsPT.find_translation text cache (ScriptsPT.cacheKeysSorted cache) =
        FuzzySpec.findFuzzySpec text cache) ∧
    ScriptsPT.find_translation ("AAAAAAAAAAAAAA".toList)
      [(("AAAAAAAAAAAAAA".toList), Json.str ("T14".toList)),
       (("AAAAAAAAAA".toList), Json.str ("T10".toList))]
      (ScriptsPT.cacheKeysSorted
        [(("AAAAAAAAAAAAAA".toList), Json.str ("T14".toList)),
         (("AAAAAAAAAA".toList), Json.str ("T10".toList))]) =
      some (Json.str ("T14".toList)) := by
  constructor
  · intro text cache
    unfold ScriptsPT.find_translation FuzzySpec.findFuzzySpec
    by_cases h : (ScriptsPT.normalize_text text).length < 3
    · simp [h]
    · have hne : (ScriptsPT.normalize_text text).isEmpty = false := by
        cases hn : ScriptsPT.normalize_text text with
        | nil => rw [hn] at h; simp at h
        | cons a l => rfl
      have hgt : ¬(((ScriptsPT.normalize_text text).isEmpty ||
          decide ((ScriptsPT.normalize_text text).length < 3)) = true) := by
        simp [hne, h]
      rw [if_neg hgt, if_neg h, fuzzyKey_eq_spec]
  · rfl

theorem mem_values_of_dictGet {α : Type} (d : List (List Char × α)) (k : List Char) (v : α)
    (h : PyStr.dictGet d k = some v) : v ∈ d.map (fun p => p.2) := by
  unfold PyStr.dictGet at h
  cases hf : d.find? (fun p => p.1 == k) with
  | none => rw [hf] at h; simp at h
  | some a =>
    rw [hf] at h
    simp only [Option.map_some', Option.some.injEq] at h
    have ha := List.mem_of_find?_eq_some hf
    rw [← h]
    exact List.mem_map_of_mem _ ha

/-- C9: `find_translation` is sound for its cache — whenever it returns a
translation, that translation is one of the values stored in the cache
(under some key); and on the empty cache it returns nothing for every
query. -/
theorem C9_find_translation_sound :
    (∀ (text : List Char) (cache : ScriptsPT.Cache) (v : Json),
      ScriptsPT.find_translation text cache (ScriptsPT.cacheKeysSorted cache) = some v →
      v ∈ cache.map (fun p => p.2)) ∧
    (∀ text : List Char,
      ScriptsPT.find_translation text [] (ScriptsPT.cacheKeysSorted []) = none) := by
  constructor
  · intro text cache v h
    unfold ScriptsPT.find_translation at h
    by_cases hg : ((ScriptsPT.normalize_text text).isEmpty ||
        decide ((ScriptsPT.normalize_text text).length < 3)) = true
    · rw [if_pos hg] at h
      exact absurd h (by simp)
    · rw [if_neg hg] at h
      cases he : PyStr.dictGet cache (ScriptsPT.normalize_text text) with
      | some v0 =>
        rw [he] at h
        exact mem_values_of_dictGet cache _ v (by rw [he, ← h])
      | none =>
        rw [he] at h
        cases hf : ScriptsPT.fuzzyMatchedKey (ScriptsPT.normalize_text text)
            (ScriptsPT.cacheKeysSorted cache) with
        | some k =>
          rw [hf] at h
          exact mem_values_of_dictGet cache k v h
        | none =>
          rw [hf] at h
          exact absurd h (by simp)
  · intro text
    unfold ScriptsPT.find_translation
    by_cases hg : ((ScriptsPT.normalize_text text).isEmpty ||
        decide ((ScriptsPT.normalize_text text).length < 3)) = true
    · rw [if_pos hg]
    · rw [if_neg hg]
      have hempty : ∀ k, PyStr.dictGet ([] : ScriptsPT.Cache) k = none := fun k => rfl
      rw [hempty]
      cases hf : ScriptsPT.fuzzyMatchedKey (ScriptsPT.normalize_text text)
          (ScriptsPT.cacheKeysSorted []) with
      | some k => exact hempty k
      | none => rfl

/-- C9 witness: a concrete hit — the returned translation is one of the
cache's stored values. -/
theorem C9_find_translation_sound_witness :
    Json.str ("X".toList) ∈
      ([(("abc".toList), Json.str ("X".toList))] : ScriptsPT.Cache).map (fun p => p.2) :=
  C9_find_translation_sound.1 ("abc".toList) _ _ (by rfl)

/-- C2 counterexample: the cache key transform is the MD5 digest of the
exact text, not a whitespace normalization — storing under `"a b"` and
looking up `"ab"` (texts differing only in whitespace) misses. -/
theorem C2_counterexample :
    InternalPT.TranslationCache.get
      (InternalPT.TranslationCache.set [] ("a b".toList) ("X".toList))
      ("ab".toList) = none := by
  rfl

/-- C2 (amended): `get` and `set` apply the same key transform — the MD5
hex digest of the exact text — so for every prior cache state, a `set`
followed by a `get` with the identical text returns the stored
translation; texts differing only in whitespace hash to different keys
and do not share entries. -/
theorem C2_md5_roundtrip (c : InternalPT.Cache) (t x : List Char) :
    InternalPT.TranslationCache.get (InternalPT.TranslationCache.set c t x) t = some x := by
  unfold InternalPT.TranslationCache.get InternalPT.TranslationCache.set
  exact PyStr.dictGet_dictSet c (MD5.md5HexOfText t) x

/-- C3 counterexample: in python_overlay.py a block carrying font size 20
is rendered at the clamped size 16, above the claimed ceiling of 14
(box 100 x 20 is positive and plays no role in the clamp). -/
theorem C3_counterexample :
    PyOverlay.blockFontSize (some 20) = 16 ∧ (14 : ℚ) < PyOverlay.blockFontSize (some 20) := by
  constructor <;> norm_num [PyOverlay.blockFontSize, min_def, max_def]

/-- C3 (amended): every rendering path keeps the final font size at or
above the floor of 5, but the ceiling is path specific: at most 12 in
the line-based script, at most 16 in the reportlab overlay, and the API
pipeline enforces no ceiling at all (a block whose original spans
average size 100 is attempted at size 110). -/
theorem C3_font_size_bands :
    (∀ sp : Option (Option ℚ),
      5 ≤ ScriptsPT.lineFontSize sp ∧ ScriptsPT.lineFontSize sp ≤ 12) ∧
    (∀ fs : Option ℚ,
      5 ≤ PyOverlay.blockFontSize fs ∧ PyOverlay.blockFontSize fs ≤ 16) ∧
    (∀ (sizes : List ℚ) (f1 f2 : Bool), 5 ≤ InternalPT.attemptSize sizes f1 f2) ∧
    InternalPT.attemptSize [100] true true = 110 := by
  refine ⟨?_, ?_, ?_, ?_⟩
  · intro sp
    cases sp with
    | none => constructor <;> norm_num [ScriptsPT.lineFontSize]
    | some sz =>
      unfold ScriptsPT.lineFontSize
      constructor
      · have h6 : (6 : ℚ) ≤ max ((sz.getD 9) * (9 / 10)) 6 := le_max_right _ _
        have h12 : (5 : ℚ) ≤ 12 := by norm_num
        exact le_min (le_trans (by norm_num) h6) h12
      · exact min_le_right _ _
  · intro fs
    unfold PyOverlay.blockFontSize
    constructor
    · exact le_trans (by norm_num) (le_max_left _ _)
    · exact max_le (by norm_num) (min_le_right _ _)
  · intro sizes f1 f2
    have hbase : (12 : ℚ) ≤ InternalPT.blockFontSize sizes := by
      unfold InternalPT.blockFontSize InternalPT.BASE_FONT_SIZE
      exact le_max_left _ _
    unfold InternalPT.attemptSize
    by_cases h1 : f1 = true
    · simp only [h1, if_pos]
      exact le_trans (by norm_num) hbase
    · simp only [h1, if_neg, Bool.false_eq_true, not_false_iff]
      by_cases h2 : f2 = true
      · simp only [h2, if_pos]
        have : (12 : ℚ) * (85 / 100) ≤ InternalPT.blockFontSize sizes * (85 / 100) :=
          mul_le_mul_of_nonneg_right hbase (by norm_num)
        linarith
      · simp only [h2, if_neg, Bool.false_eq_true, not_false_iff]
        norm_num [InternalPT.BASE_FONT_SIZE]
  · unfold InternalPT.attemptSize InternalPT.blockFontSize InternalPT.avgFontSize
      InternalPT.BASE_FONT_SIZE
    norm_num [max_def]

/-- C4 counterexample: the same logical entry (original `"a b c"`,
translation `"X"`) loaded through the two external shapes lands in
incompatible mappings: the entries-shape loader of the line-based script
keys it by the whitespace-stripped text, so the query `"abc"` resolves
to `"X"` there, while the list-shape loader of the overlay script keys
it by MD5 of the stripped original, so the same query `"abc"` resolves
to nothing. -/
theorem C4_counterexample :
    ScriptsPT.load_cache (some (Json.obj
      [(("entries".toList), Json.arr
        [Json.obj [(("original".toList), Json.str ("a b c".toList)),
                   (("translation".toList), Json.str ("X".toList))]])]))
      = Except.ok [(("abc".toList), Json.str ("X".toList))] ∧
    ScriptsPT.find_translation ("abc".toList)
      [(("abc".toList), Json.str ("X".toList))]
      (ScriptsPT.cacheKeysSorted [(("abc".toList), Json.str ("X".toList))])
      = some (Json.str ("X".toList)) ∧
    OverlayPDF.TranslationCache.get
      (OverlayPDF.load_from_translations [] [⟨("a b c".toList), ("X".toList)⟩])
      ("abc".toList) = none := by
  refine ⟨?_, ?_, ?_⟩ <;> rfl

/-- C4 (amended): within one cache implementation the convergence does
hold — for the overlay cache, a flat file keyed by the `set` transform
(MD5 of the stripped original) and the list-of-entries shape load into
the same internal mapping, with identical `get` results for every query;
across the two loaders cited by the claim the key transforms differ
(whitespace-stripped text vs MD5 hash) and lookup results diverge. -/
theorem C4_overlay_shapes_converge (ts : List OverlayPDF.TransEntry)
    (h : ∀ t ∈ ts, PyStr.pyStrip t.text ≠ [] ∧ PyStr.pyStrip t.translated_text ≠ []) :
    OverlayPDF.TranslationCache.loadedCache (some (OverlayPDF.flatShapeOf ts)) =
      OverlayPDF.load_from_translations [] ts ∧
    ∀ q, OverlayPDF.TranslationCache.get
        (OverlayPDF.TranslationCache.loadedCache (some (OverlayPDF.flatShapeOf ts))) q =
      OverlayPDF.TranslationCache.get (OverlayPDF.load_from_translations [] ts) q := by
  have heq : OverlayPDF.TranslationCache.loadedCache (some (OverlayPDF.flatShapeOf ts)) =
      OverlayPDF.load_from_translations [] ts := by
    unfold OverlayPDF.TranslationCache.loadedCache OverlayPDF.flatShapeOf
      OverlayPDF.load_from_translations
    suffices hgen : ∀ acc : OverlayPDF.Cache,
        ((ts.map (fun t => (MD5.md5HexOfText (PyStr.pyStrip t.text),
            Json.str (PyStr.pyStrip t.translated_text)))).foldl
          (fun m p => match p.2 with | .str v => PyStr.dictSet m p.1 v | _ => m) acc) =
        ts.foldl (fun acc t =>
          let orig := PyStr.pyStrip t.text
          let trans := PyStr.pyStrip t.translated_text
          if !orig.isEmpty && !trans.isEmpty then
            OverlayPDF.TranslationCache.set acc orig trans
          else acc) acc by
      exact hgen []
    induction ts with
    | nil => intro acc; rfl
    | cons t rest ih =>
      intro acc
      have ht := h t (List.mem_cons_self t rest)
      have h1 : (PyStr.pyStrip t.text).isEmpty = false := by
        cases hc : PyStr.pyStrip t.text with
        | nil => exact absurd hc ht.1
        | cons a l => rfl
      have h2 : (PyStr.pyStrip t.translated_text).isEmpty = false := by
        cases hc : PyStr.pyStrip t.translated_text with
        | nil => exact absurd hc ht.2
        | cons a l => rfl
      simp only [List.map_cons, List.foldl_cons, h1, h2, Bool.not_false, Bool.and_self,
        if_pos]
      exact ih (fun x hx => h x (List.mem_cons_of_mem t hx)) _
  exact ⟨heq, fun q => by rw [heq]⟩

/-- C4 witness: a concrete entry list on which the two overlay shapes
agree, checked at the query that hits. -/
theorem C4_overlay_shapes_converge_witness :
    OverlayPDF.TranslationCache.get
      (OverlayPDF.TranslationCache.loadedCache
        (some (OverlayPDF.flatShapeOf [⟨("a b c".toList), ("X".toList)⟩])))
      ("a b c".toList) =
    OverlayPDF.TranslationCache.get
      (OverlayPDF.load_from_translations [] [⟨("a b c".toList), ("X".toList)⟩])
      ("a b c".toList) :=
  (C4_overlay_shapes_converge [⟨("a b c".toList), ("X".toList)⟩] (by decide)).2 ("a b c".toList)

/-- C5 counterexample: a malformed cache file (the parse fails) makes the
line-based script's load_cache raise past the load call — `json.load` has
no surrounding handler there — so the run aborts instead of recovering. -/
theorem C5_counterexample :
    ScriptsPT.load_cache none = Except.error () := by
  rfl

/-- C5 (amended): `TranslationCache.load` of the API/overlay pipelines
recovers a malformed cache file locally (the cache becomes the empty
mapping and the run proceeds), but the line-based script's `load_cache`
has no handler and a malformed cache file raises out of the load,
aborting that run. -/
theorem C5_malformed_cache :
    InternalPT.TranslationCache.loadedCache none = [] ∧
    OverlayPDF.TranslationCache.loadedCache none = [] ∧
    ScriptsPT.load_cache none = Except.error () := by
  exact ⟨rfl, rfl, rfl⟩

/-- C6 counterexample: a non-2xx status outside the 4xx/5xx error band —
here 301 — with a well-formed completion body is treated as success by
translate_text (`raise_for_status` only raises for 400-599), so not
every non-2xx response yields a failure value. -/
theorem C6_counterexample :
    InternalPT.translate_text (.response 301 (some (Json.obj
      [(("choices".toList), Json.arr [Json.obj
        [(("message".toList), Json.obj
          [(("content".toList), Json.str (" hi ".toList))])]])])))
      = some ("hi".toList) := by
  rfl

/-- C6 (amended): translate_text returns `none` — never an exception —
for every network error, every 4xx/5xx response and every response whose
body is not parseable; and the calling block loop leaves a block whose
cache lookup misses and whose service call fails untouched
(`leftOriginal`), with the cache unchanged and the remaining blocks
processed exactly as before.  (A non-2xx status outside 400-599 with a
well-formed body is treated as success.) -/
theorem C6_service_failure_recovery :
    (InternalPT.translate_text .netError = none) ∧
    (∀ (s : Nat) (body : Option Json), 400 ≤ s → s < 600 →
      InternalPT.translate_text (.response s body) = none) ∧
    (∀ s : Nat, InternalPT.translate_text (.response s none) = none) ∧
    (∀ (c : InternalPT.Cache) (text : List Char) (svc : InternalPT.ServiceResult)
        (rest : List (List Char × InternalPT.ServiceResult)),
      InternalPT.should_translate text = true →
      InternalPT.TranslationCache.get c text = none →
      InternalPT.translate_text svc = none →
      InternalPT.processBlocks c ((text, svc) :: rest) =
        ((InternalPT.BlockResult.leftOriginal text) :: (InternalPT.processBlocks c rest).1,
          (InternalPT.processBlocks c rest).2)) := by
  refine ⟨rfl, ?_, ?_, ?_⟩
  · intro s body hlo hhi
    have : (decide (400 ≤ s) && decide (s < 600)) = true := by simp [hlo, hhi]
    show (if (decide (400 ≤ s) && decide (s < 600)) = true then none
      else match body with
      | none => none
      | some j => InternalPT.extractContent j) = none
    rw [if_pos this]
  · intro s
    show (if (decide (400 ≤ s) && decide (s < 600)) = true then none
      else match (none : Option Json) with
      | none => none
      | some j => InternalPT.extractContent j) = none
    by_cases hb : (decide (400 ≤ s) && decide (s < 600)) = true
    · rw [if_pos hb]
    · rw [if_neg hb]
  · intro c text svc rest hst hget hsvc
    have hstep : InternalPT.stepBlock c text svc =
        (InternalPT.BlockResult.leftOriginal text, c) := by
      unfold InternalPT.stepBlock
      rw [hst]
      simp only [Bool.not_true, Bool.false_eq_true, if_neg, not_false_iff]
      rw [hget, hsvc]
    rw [InternalPT.processBlocks, hstep]

/-- C6 witness: a concrete 500 response on a concrete translatable block
with an empty cache — the service call fails, the block is left with its
original text, and processing continues (here, to the end of the list). -/
theorem C6_service_failure_recovery_witness :
    InternalPT.translate_text (.response 500 none) = none ∧
    InternalPT.processBlocks [] [(("Hello world".toList), .response 500 none)] =
      ([InternalPT.BlockResult.leftOriginal ("Hello world".toList)], []) := by
  refine ⟨C6_service_failure_recovery.2.1 500 none (by decide) (by decide), ?_⟩
  rw [C6_service_failure_recovery.2.2.2 [] ("Hello world".toList)
    (.response 500 none) [] (by decide) (by decide)
    (C6_service_failure_recovery.2.1 500 none (by decide) (by decide))]
  rfl

theorem should_translate_short (s : List Char) (h : (PyStr.pyStrip s).length < 3) :
    InternalPT.should_translate s = false := by
  simp [InternalPT.should_translate, h]

/-- C7: should_translate rejects every string whose trimmed length is
below 3, and every string whose trimmed text splits into at least 3
lines of which more than 70 percent consist solely of digits after
trimming (the threshold is the exact comparison
`10 * digit_lines > 7 * lines`). -/
theorem C7_should_translate_false_cases :
    (∀ s : List Char, (PyStr.pyStrip s).length < 3 →
      InternalPT.should_translate s = false) ∧
    (∀ s : List Char,
      3 ≤ (PyStr.splitLinesLF (PyStr.pyStrip s)).length →
      7 * (PyStr.splitLinesLF (PyStr.pyStrip s)).length <
        10 * ((PyStr.splitLinesLF (PyStr.pyStrip s)).countP
          (fun l => PyStr.pyIsDigitStr (PyStr.pyStrip l))) →
      InternalPT.should_translate s = false) := by
  constructor
  · exact should_translate_short
  · intro s h3 hfrac
    by_cases hlen : (PyStr.pyStrip s).length < 3
    · exact should_translate_short s hlen
    · have hnot3 : ¬((PyStr.splitLinesLF (PyStr.pyStrip s)).length < 3) := by omega
      have hlnum : InternalPT.is_line_number (PyStr.pyStrip s) = true := by
        simp only [InternalPT.is_line_number, PyStr.pyStrip_idem]
        rw [if_neg hnot3]
        exact decide_eq_true hfrac
      have hne : (PyStr.pyStrip s).isEmpty = false := by
        cases hc : PyStr.pyStrip s with
        | nil => rw [hc] at hlen; simp at hlen
        | cons a l => rfl
      simp [InternalPT.should_translate, hne, hlen, hlnum]

/-- C7 witness: the two rejection cases at concrete inputs — a 2-character
string, and a 5-line string with 4 digit lines (80 percent). -/
theorem C7_should_translate_false_cases_witness :
    InternalPT.should_translate ("ab".toList) = false ∧
    InternalPT.should_translate ("1\n2\n3\n4\nx".toList) = false :=
  ⟨C7_should_translate_false_cases.1 ("ab".toList) (by decide),
   C7_should_translate_false_cases.2 ("1\n2\n3\n4\nx".toList) (by decide) (by decide)⟩

/-- C10: a block whose page index is at or past the document's page count
is skipped entirely by the write_translations loop — the step succeeds,
no page of the document is modified on behalf of the block, and the
translated counter is not incremented. -/
theorem C10_out_of_range_page_skipped (ro : WriteTrans.RenderOutcome)
    (st : WriteTrans.WTState) (b : WriteTrans.WBlock)
    (h : (st.doc.length : Int) ≤ b.page) :
    (WriteTrans.writeStep ro st b).isSome = true ∧
    (WriteTrans.writeStep ro st b).map (fun s2 => s2.doc) = some st.doc ∧
    (WriteTrans.writeStep ro st b).map (fun s2 => s2.translated_count) =
      some st.translated_count := by
  simp only [WriteTrans.writeStep]
  by_cases he : (PyStr.pyStrip b.translated_text).isEmpty = true
  · rw [if_pos he]
    exact ⟨rfl, rfl, rfl⟩
  · rw [if_neg he, if_pos h]
    exact ⟨rfl, rfl, rfl⟩

/-- C10 witness: a one-block instance on an empty (zero-page) document,
the block aimed at page 3. -/
theorem C10_out_of_range_page_skipped_witness :
    (WriteTrans.writeStep ⟨Except.ok 0, Except.ok 0, true, true⟩
      ⟨[], 0, 0⟩ ⟨("你好".toList), 3, 0, 0, 100, 20⟩).isSome = true ∧
    (WriteTrans.writeStep ⟨Except.ok 0, Except.ok 0, true, true⟩
      ⟨[], 0, 0⟩ ⟨("你好".toList), 3, 0, 0, 100, 20⟩).map (fun s2 => s2.doc) =
      some [] ∧
    (WriteTrans.writeStep ⟨Except.ok 0, Except.ok 0, true, true⟩
      ⟨[], 0, 0⟩ ⟨("你好".toList), 3, 0, 0, 100, 20⟩).map
        (fun s2 => s2.translated_count) = some 0 :=
  C10_out_of_range_page_skipped _ _ _ (by decide)
